import Mathlib

/-!
Verification development for the `web-requester` repository.

The repository is a hybrid HTTP dispatcher: `web_requester/requester.py` is the
primary implementation (`request_all` / `request_all_async` / `async_request` /
`sync_to_async_request` / `aiohttp_pure_request` / `sync_request`), and
`http_requests/async_requests.py` is the shipped historical variant
(`execute_async` / `aiohttp_pure_request` / `sync_request`).

This file shallowly embeds the dispatch, option-merging, routing, retry and
result-assembly logic of both files. Network effects are abstracted: the
outcome a transport observes for one concrete request (a response / timeout /
HTTP-error status / connection failure) is an explicit input to the embedded
function, exactly mirroring where the Python code branches on those outcomes.
Connection-pool plumbing values (`aio_client`, `close_aio_at_end`) carry no
information relevant to any verified property beyond being popped from option
dicts, which is modelled.
-/

deriving instance DecidableEq for Except

namespace WebRequester

/-! ## URL scheme extraction

`urllib3.util.parse_url(u).scheme`: the text before the first `://`, or `None`
when the string has no scheme marker.  `parse_url(None)` returns an empty
`Url`, whose `scheme` is `None`. -/

/-- Characters of the scheme: everything before the first occurrence of
`://`, or `none` when the marker never occurs. `acc` holds the characters
already scanned, in reverse. -/
def findScheme (acc : List Char) : List Char → Option (List Char)
  | ':' :: '/' :: '/' :: _ => some acc.reverse
  | c :: rest => findScheme (c :: acc) rest
  | [] => none

def urlScheme (u : String) : Option String :=
  (findScheme [] u.data).map List.asString

def parse_url_scheme : Option String → Option String
  | none => none
  | some s => urlScheme s

/-- Python truthiness of the `single_proxy` value (either `None` or a string):
`None` and `""` are falsy. -/
def pyTruthy : Option String → Bool
  | none => false
  | some s => !s.isEmpty

/-! ## Option dictionaries

Python dicts of request options, as association lists where the *last* binding
of a key wins (so `{**a, **b}` is `a ++ b`). Option values are abstracted to
the shapes the claims need. -/

inductive OVal
  | vs (s : String)
  | vn (n : Int)
  | vb (b : Bool)
deriving DecidableEq, Repr

abbrev Opts := List (String × OVal)

/-- Lookup in a Python dict modelled as an assoc list: the last binding wins. -/
def dictGet (d : Opts) (k : String) : Option OVal :=
  (d.reverse.find? (fun p => p.1 == k)).map (·.2)

/-- Python `{**a, **b}` (later bindings override). -/
def pyMerge (a b : Opts) : Opts := a ++ b

/-- Python `d.pop(k, None)`: the dict without key `k`. -/
def pyPop (d : Opts) (k : String) : Opts := d.filter (fun p => p.1 != k)

/-! ## Proxy configuration values -/

/-- A scheme-keyed proxy mapping, modelled by its `'http'` and `'https'`
entries (the only keys the code ever reads). -/
structure ProxyMap where
  http : Option String
  https : Option String
deriving DecidableEq, Repr

/-- A proxy configuration value as the routing code sees it: a bare URL string
or a scheme-keyed mapping (the shapes of the data model; `None` is represented
by an outer `Option`). -/
inductive RouteProxy
  | pstr (s : String)
  | pmap (http : Option String)
deriving DecidableEq, Repr

/-- A proxy configuration value as handed to the sync transport: a string, a
mapping, or a value of any other type. -/
inductive SyncProxyVal
  | pstr (s : String)
  | pmap (m : ProxyMap)
  | pother
deriving DecidableEq, Repr

/-! ## Timeout values -/

/-- A timeout option value: a string, an int, `None`, or a value of any other
non-string type (e.g. a float). -/
inductive TimeoutVal
  | tstr (s : String)
  | tint (n : Int)
  | tnone
  | tother
deriving DecidableEq, Repr

def TimeoutVal.isStr : TimeoutVal → Bool
  | .tstr _ => true
  | _ => false

/-- Python `str.isdigit` restricted to ASCII digit strings: non-empty and all
characters are digits. -/
def pyIsdigit (s : String) : Bool := !s.data.isEmpty && s.data.all Char.isDigit

/-- Python `int()` on a digit string: its decimal value. -/
def pyInt (s : String) : Nat :=
  s.data.foldl (fun a c => 10 * a + (c.toNat - '0'.toNat)) 0

/-- Timeout normalization in `async_request` (requester.py lines 198-202):
a digit string becomes `int(timeout)`, any other string becomes `None`, and
every non-string value is left untouched. -/
def normalize_timeout : TimeoutVal → TimeoutVal
  | .tstr s => if pyIsdigit s then .tint (pyInt s) else .tnone
  | v => v

/-! ## Proxy normalization (sync transport) -/

/-- Proxy normalization in `sync_to_async_request` (requester.py lines
245-251): a string is expanded to a per-scheme mapping, a dict passes through,
anything else becomes `None`. -/
def sync_to_async_proxy_norm : Option SyncProxyVal → Option ProxyMap
  | some (.pstr s) => some ⟨some s, some s⟩
  | some (.pmap m) => some m
  | some .pother => none
  | none => none

/-- The second normalization layer inside `sync_request` itself (requester.py
lines 346-350): only the string case is expanded; everything else passes
through. -/
def sync_request_proxy_norm : Option SyncProxyVal → Option SyncProxyVal
  | some (.pstr s) => some (.pmap ⟨some s, some s⟩)
  | v => v

/-- Re-embedding of a normalized proxy mapping as a proxy value (the value
`sync_to_async_request` actually passes to `sync_request`). -/
def proxyMapVal : Option ProxyMap → Option SyncProxyVal
  | none => none
  | some m => some (.pmap m)

/-! ## Route selection (requester.py `async_request`, lines 204-221) -/

/-- The `single_proxy` local of `async_request`: a dict's `'http'` entry,
otherwise the value itself (`None` stays `None`). -/
def single_proxy : Option RouteProxy → Option String
  | none => none
  | some (.pstr s) => some s
  | some (.pmap h) => h

/-- Route selection of `async_request`: scheme validation (`ValueError` on a
scheme outside http/https), then the aiohttp-allowed decision as the code
computes it by successive reassignment of `allow_aio`. Returns the final
`allow_aio` value. -/
def async_request_route (allow_aio hasCallback : Bool) (url : String)
    (proxy : Option RouteProxy) : Except Unit Bool :=
  let parsedScheme := urlScheme url
  if parsedScheme = some "http" ∨ parsedScheme = some "https" then
    let sp := single_proxy proxy
    let afterProxy :=
      if (proxy.isSome && !pyTruthy sp) || (parsedScheme == some "https")
          || (parse_url_scheme sp == some "https") then false
      else allow_aio
    let afterCallback := if hasCallback then false else afterProxy
    .ok afterCallback
  else
    .error ()

/-- The disallow predicate exactly as claim C1 / spec §4.1 word it: async is
disallowed iff the caller disabled it, a callback was supplied, the URL scheme
is https, a proxy *mapping* is configured whose `'http'` entry is empty or
missing, or the configured proxy's scheme is https. -/
def specAsyncDisallowed (allow_async hasCallback : Bool) (url : String)
    (proxy : Option RouteProxy) : Bool :=
  !allow_async || hasCallback || (urlScheme url == some "https")
    || (match proxy with
        | some (.pmap h) => !pyTruthy h
        | _ => false)
    || (parse_url_scheme (single_proxy proxy) == some "https")

/-- The amended disallow predicate: condition (d) is widened from "a proxy
mapping with an empty/missing http entry" to "any configured (non-`None`)
proxy whose effective http proxy value is empty or missing", which also
covers a bare empty-string proxy. -/
def amendedAsyncDisallowed (allow_async hasCallback : Bool) (url : String)
    (proxy : Option RouteProxy) : Bool :=
  !allow_async || hasCallback || (urlScheme url == some "https")
    || (proxy.isSome && !pyTruthy (single_proxy proxy))
    || (parse_url_scheme (single_proxy proxy) == some "https")

/-! ## Response data and result values

A response, as either transport observes it, abstracted to the fields the code
reads. `textRaw` is the body decode under the declared encoding (`.error ()`
standing for a raised `UnicodeError`); `textFallback` is the decode forced to
the default encoding with replacement. -/

structure RespData where
  url : String
  status : Nat
  headers : List (String × String)
  request_headers : List (String × String)
  textRaw : Except Unit String
  textFallback : String
deriving DecidableEq, Repr

/-- Body text with the encoding-fallback policy shared by both transports. -/
def resp_text (r : RespData) : String :=
  match r.textRaw with
  | .ok t => t
  | .error _ => r.textFallback

/-- The `HTTPInfo` named tuple of the historical variant. -/
structure HTTPInfo where
  url : String
  status_code : Nat
  headers : List (String × String)
  request_headers : List (String × String)
deriving DecidableEq, Repr

/-- A per-request result value (the non-`None` payload of a slot): the plain
body text returned by requester.py, a callback's return value, or the fully
populated `AsyncResponse(type, HTTPInfo, text)` of the historical variant. -/
inductive ResultVal
  | text (s : String)
  | cbval (n : Int)
  | full (kind : String) (info : HTTPInfo) (body : String)
deriving DecidableEq, Repr

def ResultVal.isFull : ResultVal → Bool
  | .full .. => true
  | _ => false

/-! ## Exceptions -/

inductive PyExn
  | attrError
  | valueError
  | typeError
  | timeout
  | httpError
  | connError
  | reqExn
deriving DecidableEq, Repr

/-! ## Async transport (requester.py `aiohttp_pure_request`, lines 314-332)

The aiohttp call's outcome for one concrete request. `raise_for_status=True`
is passed to the client, so an HTTP-error status surfaces as a raised
`ClientResponseError`, not as a returned response. -/

inductive AioOutcome
  | resp (r : RespData)
  | timeout
  | respError (status : Nat)
  | connError
deriving DecidableEq, Repr

/-- Lines 315-332 of requester.py: a response yields its body text (with
encoding fallback); `TimeoutError` and `ClientResponseError` are logged and
turned into `None`; `ClientConnectionError` is logged and re-raised. -/
def aiohttp_pure_request (o : AioOutcome) : Except Unit (Option ResultVal) :=
  match o with
  | .resp r => .ok (some (.text (resp_text r)))
  | .timeout => .ok none
  | .respError _ => .ok none
  | .connError => .error ()

inductive Transport
  | async
  | sync
deriving DecidableEq, Repr

/-- The execution phase of `async_request` after route selection (requester.py
lines 222-237), with the list of transports attempted. `syncOutcome` is the
terminal outcome `sync_to_async_request` would produce for this same request
(it can itself be a propagated exception, see `sync_request`). When aiohttp is
allowed, only a caught `ClientConnectionError` falls through to the
`sync_to_async_request` call. -/
def async_request_exec (allow_aio : Bool) (aio : AioOutcome)
    (syncOutcome : Except PyExn (Option ResultVal)) :
    Except PyExn (Option ResultVal) × List Transport :=
  if allow_aio then
    match aiohttp_pure_request aio with
    | .ok v => (.ok v, [.async])
    | .error _ => (syncOutcome, [.async, .sync])
  else
    (syncOutcome, [.sync])

/-! ## Sync transport (requester.py `sync_request`, lines 335-375) -/

/-- The outcome of the `requests.request(method, url, **client_kwargs)` call
itself: a response object, or one of the exceptions `requests` raises. -/
inductive ReqCallOutcome
  | resp (r : RespData)
  | timeout
  | connError
  | otherExn
deriving DecidableEq, Repr

/-- The default result extractor (requester.py lines 260-266): the body text,
retried under the default encoding on `UnicodeError`. -/
def get_response_text (r : RespData) : String := resp_text r

/-- Whether `resp.raise_for_status()` raises: requests raises `HTTPError` for
4xx and 5xx status codes. -/
def raiseForStatusRaises (status : Nat) : Bool :=
  decide (400 ≤ status ∧ status < 600)

/-- Lines 335-375 of requester.py, with the Boolean recording whether the
(supplied or default) callback was invoked. The `requests.request` call sits
*outside* the `try` block, so an exception it raises propagates; only
`raise_for_status` and the callback run inside the `try`, whose handlers
convert `Timeout` / `HTTPError` / `RequestException` to `None`. -/
def sync_request_run (o : ReqCallOutcome)
    (callback : Option (RespData → ResultVal)) :
    Except PyExn (Option ResultVal) × Bool :=
  let cb := callback.getD (fun r => .text (get_response_text r))
  match o with
  | .resp r =>
      if raiseForStatusRaises r.status then (.ok none, false)
      else (.ok (some (cb r)), true)
  | .timeout => (.error .timeout, false)
  | .connError => (.error .connError, false)
  | .otherExn => (.error .reqExn, false)

def sync_request (o : ReqCallOutcome)
    (callback : Option (RespData → ResultVal)) :
    Except PyExn (Option ResultVal) :=
  (sync_request_run o callback).1

/-! ## Historical variant transports (http_requests/async_requests.py) -/

/-- Lines 264-275 of async_requests.py: a successful aiohttp response is
wrapped as `AsyncResponse(type='aiohttp', HTTPInfo(url, status, headers,
request_headers), text)`. (Its error handling lives in the old
`async_request`, not here.) -/
def old_aiohttp_pure_request (r : RespData) : ResultVal :=
  .full "aiohttp" ⟨r.url, r.status, r.headers, r.request_headers⟩ (resp_text r)

/-- Lines 292-338 of async_requests.py: the old `sync_request`. Same
`try`-block placement as the new one (the `requests.request` call is outside
it), but a success is wrapped as `AsyncResponse(type='requests',
HTTPInfo(...), text)`. -/
def old_sync_request (o : ReqCallOutcome) : Except PyExn (Option ResultVal) :=
  match o with
  | .resp r =>
      if raiseForStatusRaises r.status then .ok none
      else .ok (some (.full "requests"
        ⟨r.url, r.status, r.headers, r.request_headers⟩ (resp_text r)))
  | .timeout => .error .timeout
  | .connError => .error .connError
  | .otherExn => .error .reqExn

/-! ## Batch coordinator (requester.py `request_all_async`, lines 154-183)

A batch target as Python sees it: a string, a well-shaped 2-element
list/tuple whose second element is a dict, a list/tuple failing that shape
check, or any other value. A non-string non-sequence target is *not* caught
by the shape check: it is passed straight through as a `url`. -/

inductive UrlVal
  | ustr (u : String)
  | unonstr
deriving DecidableEq, Repr

inductive Target
  | plain (u : UrlVal)
  | pair (u : UrlVal) (opts : Opts)
  | badTup
deriving DecidableEq, Repr

instance : Inhabited (UrlVal × Opts) := ⟨(.unonstr, [])⟩

/-- Keys popped from a pair target's merged options before the task call
(requester.py lines 168-169). -/
def stripClientKeys (d : Opts) : Opts :=
  pyPop (pyPop d "aio_client") "close_aio_at_end"

/-- One iteration of the `aux` loop: `comm_opts = dict(common_options)` (a
fresh copy), merged under the pair's own options when the target is a
list/tuple; a list/tuple failing the shape check raises `AttributeError`. -/
def buildTask (common : Opts) : Target → Except Unit (UrlVal × Opts)
  | .plain u => .ok (u, common)
  | .pair u o => .ok (u, stripClientKeys (pyMerge common o))
  | .badTup => .error ()

/-- The whole `aux` loop: builds the per-target task list in input order,
aborting with `AttributeError` at the first malformed list/tuple target
(tasks already appended are coroutines that are never awaited). -/
def buildTasks (common : Opts) : List Target → Except Unit (List (UrlVal × Opts))
  | [] => .ok []
  | t :: ts =>
      match buildTask common t with
      | .error e => .error e
      | .ok task =>
          match buildTasks common ts with
          | .error e => .error e
          | .ok rest => .ok (task :: rest)

/-- The task a well-shaped target builds (total companion of `buildTask`). -/
def taskOf (common : Opts) : Target → UrlVal × Opts
  | .plain u => (u, common)
  | .pair u o => (u, stripClientKeys (pyMerge common o))
  | .badTup => default

/-- One gathered task: `async_request` run on its url and effective options.
`parse_url` raises `TypeError` on a non-string url; a string url outside
http/https raises `ValueError` (requester.py lines 204-206). A url passing
validation produces the terminal per-request outcome, abstracted by the
oracle `exec`. -/
def run_async_request (exec : String → Opts → Option ResultVal) :
    UrlVal × Opts → Except PyExn (Option ResultVal)
  | (.unonstr, _) => .error .typeError
  | (.ustr u, opts) =>
      if urlScheme u = some "http" ∨ urlScheme u = some "https" then
        .ok (exec u opts)
      else
        .error .valueError

/-! ### `asyncio.gather` modelled operationally

Tasks complete in an arbitrary order; each completed task writes its value
into a pre-sized slot list at the task's original index; the slot list is
read back in index order. -/

def runOrder (run : Nat → α) : List Nat → List (Option α) → List (Option α)
  | [], slots => slots
  | i :: rest, slots => runOrder run rest (slots.set i (some (run i)))

def gather (run : Nat → α) (n : Nat) (order : List Nat) : List (Option α) :=
  runOrder run order (List.replicate n none)

/-- The first exception among the gathered tasks in completion order (what
`asyncio.gather` propagates), if any. -/
def firstExn (results : Nat → Except PyExn α) (order : List Nat) :
    Option PyExn :=
  order.findSome? (fun i =>
    match results i with
    | .error e => some e
    | .ok _ => none)

inductive BatchErr
  | structural
  | task (e : PyExn)
deriving DecidableEq, Repr

/-- The gather step over the built task list: the first task exception in
completion order propagates, otherwise the filled slot list is read back in
input order. -/
def gatherPhase (tasks : List (UrlVal × Opts))
    (exec : String → Opts → Option ResultVal) (order : List Nat) :
    Except BatchErr (List (Option ResultVal)) :=
  let results := fun i => run_async_request exec (tasks.getD i default)
  match firstExn results order with
  | some e => .error (.task e)
  | none =>
      .ok ((gather (fun i => ((results i).toOption).getD none)
        tasks.length order).map (fun s => s.getD none))

/-- The full coordinator `request_all_async`: build all tasks (a malformed
list/tuple target raises the structural `AttributeError` before anything is
awaited), then gather them under the completion order `order`. -/
def request_all_async (targets : List Target) (common : Opts)
    (exec : String → Opts → Option ResultVal) (order : List Nat) :
    Except BatchErr (List (Option ResultVal)) :=
  match buildTasks common targets with
  | .error _ => .error .structural
  | .ok tasks => gatherPhase tasks exec order

/-- How many of the batch's requests are dispatched (started by the
scheduler): all of them once `gather` is reached, none when the structural
check aborted the loop. -/
def dispatchedTasks (targets : List Target) (common : Opts) : Nat :=
  match buildTasks common targets with
  | .error _ => 0
  | .ok tasks => tasks.length

/-- Structural target validity plus scheme validity: exactly the targets that
pass both the shape check and `async_request`'s scheme validation. -/
def targetValid : Target → Bool
  | .plain (.ustr u) =>
      decide (urlScheme u = some "http" ∨ urlScheme u = some "https")
  | .pair (.ustr u) _ =>
      decide (urlScheme u = some "http" ∨ urlScheme u = some "https")
  | _ => false

/-- The terminal outcome of one valid target under the oracle `exec` (the
value its slot must hold). -/
def targetOutcome (exec : String → Opts → Option ResultVal) (common : Opts) :
    Target → Option ResultVal
  | .plain (.ustr u) => exec u common
  | .pair (.ustr u) o => exec u (stripClientKeys (pyMerge common o))
  | _ => none

/-! ## Historical coordinator (async_requests.py `execute_async`, 129-143)

The old loop has no per-iteration copy: `common_options = {**common_options,
**opts}` rebinds the running dict, so a pair target's options leak into every
later target's effective options. -/

def execute_async_eff_opts (common : Opts) :
    List Target → Except Unit (List Opts)
  | [] => .ok []
  | .plain _ :: ts =>
      match execute_async_eff_opts common ts with
      | .error e => .error e
      | .ok rest => .ok (common :: rest)
  | .pair _ o :: ts =>
      match execute_async_eff_opts (pyMerge common o) ts with
      | .error e => .error e
      | .ok rest => .ok (pyMerge common o :: rest)
  | .badTup :: _ => .error ()

/-- Effective options per slot in the new coordinator, read off the built
task list. -/
def request_all_async_eff_opts (common : Opts) (targets : List Target) :
    Except Unit (List Opts) :=
  (buildTasks common targets).map (List.map Prod.snd)

/-! # Theorems -/

/-- C7: a timeout option value that is a digit string is converted to its
decimal integer value, any other string (including a non-integer numeric
string) is converted to `None`, and every non-string value passes through
unchanged. -/
theorem timeout_normalization (s : String) (v : TimeoutVal) :
    ((s.data ≠ [] ∧ ∀ c ∈ s.data, '0' ≤ c ∧ c ≤ '9') →
        normalize_timeout (.tstr s) = .tint (pyInt s))
    ∧ (¬(s.data ≠ [] ∧ ∀ c ∈ s.data, '0' ≤ c ∧ c ≤ '9') →
        normalize_timeout (.tstr s) = .tnone)
    ∧ (v.isStr = false → normalize_timeout v = v) := by
  have hiff : pyIsdigit s = true ↔ (s.data ≠ [] ∧ ∀ c ∈ s.data, '0' ≤ c ∧ c ≤ '9') := by
    simp only [pyIsdigit, Bool.and_eq_true, Bool.not_eq_true', List.isEmpty_eq_false,
      List.all_eq_true, Char.isDigit]
    constructor
    · rintro ⟨h1, h2⟩
      exact ⟨h1, fun c hc => by simpa using h2 c hc⟩
    · rintro ⟨h1, h2⟩
      exact ⟨h1, fun c hc => by simpa using h2 c hc⟩
  refine ⟨fun h => ?_, fun h => ?_, fun h => ?_⟩
  · simp [normalize_timeout, hiff.2 h]
  · have : pyIsdigit s = false := by
      rcases Bool.eq_false_or_eq_true (pyIsdigit s) with hb | hb
      · exact absurd (hiff.1 hb) h
      · exact hb
    simp [normalize_timeout, this]
  · cases v with
    | tstr t => simp [TimeoutVal.isStr] at h
    | tint n => rfl
    | tnone => rfl
    | tother => rfl

/-- C7 witness: concrete evaluations backing `timeout_normalization`. -/
theorem timeout_normalization_witness :
    normalize_timeout (.tstr "10") = .tint 10
    ∧ normalize_timeout (.tstr "10.5") = .tnone
    ∧ normalize_timeout .tnone = .tnone := by
  refine ⟨?_, ?_, ?_⟩
  · have h := (timeout_normalization "10" TimeoutVal.tnone).1 (by decide)
    have hv : pyInt "10" = 10 := by decide
    rw [h, hv]
    rfl
  · exact (timeout_normalization "10.5" TimeoutVal.tnone).2.1 (by decide)
  · exact (timeout_normalization "10" TimeoutVal.tnone).2.2 (by decide)

/-- C8: a bare string proxy handed to the sync transport is expanded into a
mapping applying the same proxy to both `http` and `https`; a mapping passes
through; any other value is discarded (no proxy); and the second
normalization layer inside `sync_request` leaves the already-normalized
value unchanged. -/
theorem sync_proxy_normalization (s : String) (m : ProxyMap)
    (p : Option SyncProxyVal) :
    sync_to_async_proxy_norm (some (.pstr s)) = some ⟨some s, some s⟩
    ∧ sync_to_async_proxy_norm (some (.pmap m)) = some m
    ∧ sync_to_async_proxy_norm (some .pother) = none
    ∧ sync_to_async_proxy_norm none = none
    ∧ sync_request_proxy_norm (proxyMapVal (sync_to_async_proxy_norm p))
        = proxyMapVal (sync_to_async_proxy_norm p) := by
  refine ⟨rfl, rfl, rfl, rfl, ?_⟩
  match p with
  | none => rfl
  | some (.pstr s) => rfl
  | some (.pmap m) => rfl
  | some .pother => rfl

/-- C1 counterexample: with an empty-string proxy the code disallows the
async transport (the route is `false`) although none of the five conditions
of the claim holds (`specAsyncDisallowed` is `false`), so the claimed
"if and only if" fails at this input. -/
theorem route_selection_counterexample :
    async_request_route true false "http://x.example" (some (.pstr "")) = .ok false
    ∧ specAsyncDisallowed true false "http://x.example" (some (.pstr "")) = false := by
  decide

/-- C1 amended: for every request passing scheme validation, the async
transport is disallowed iff the caller disabled it, a callback was supplied,
the URL scheme is https, a *configured (non-None) proxy's effective http
proxy value is empty or missing*, or the configured proxy's scheme is
https. -/
theorem route_selection_iff (aa cb : Bool) (url : String)
    (proxy : Option RouteProxy) (b : Bool)
    (h : async_request_route aa cb url proxy = .ok b) :
    b = false ↔ amendedAsyncDisallowed aa cb url proxy = true := by
  simp only [async_request_route] at h
  split at h
  · injection h with h
    subst h
    simp only [amendedAsyncDisallowed]
    cases aa <;> cases cb <;>
      cases hc1 : (proxy.isSome && !pyTruthy (single_proxy proxy)) <;>
      cases hc2 : (urlScheme url == some "https") <;>
      cases hc3 : (parse_url_scheme (single_proxy proxy) == some "https") <;>
      simp [hc1, hc2, hc3]
  · exact Except.noConfusion h

/-- C1 witness: `route_selection_iff` applied at a concrete https-proxy
input, where the route is disallowed. -/
theorem route_selection_iff_witness :
    (false = false ↔
      amendedAsyncDisallowed true false "http://x.example"
        (some (.pstr "https://p.example")) = true) :=
  route_selection_iff true false "http://x.example"
    (some (.pstr "https://p.example")) false (by decide)

/-- C2: on the async transport, a connection-establishment failure (and only
that failure kind) causes exactly one retry of the same request on the sync
transport — the attempt trace is `[async, sync]` and the outcome is the sync
outcome of the same request — while a timeout or HTTP-error-status failure is
finalized as `None` with trace `[async]` (no retry). -/
theorem async_retry_policy (aio : AioOutcome)
    (so : Except PyExn (Option ResultVal)) :
    ((async_request_exec true aio so).2 = [.async, .sync] ↔ aio = .connError)
    ∧ (aio = .timeout → async_request_exec true aio so = (.ok none, [.async]))
    ∧ (∀ st, aio = .respError st → async_request_exec true aio so = (.ok none, [.async]))
    ∧ (aio = .connError → async_request_exec true aio so = (so, [.async, .sync])) := by
  cases aio <;> simp [async_request_exec, aiohttp_pure_request]

/-- C2 witness: `async_retry_policy` applied at a connection failure with a
concrete sync outcome. -/
theorem async_retry_policy_witness :
    async_request_exec true .connError (.ok (some (.text "fallback")))
      = (.ok (some (.text "fallback")), [.async, .sync]) :=
  (async_retry_policy .connError (.ok (some (.text "fallback")))).2.2.2 rfl

/-- C4 code evaluation: because `requests.request` sits outside the `try`
block of `sync_request`, a timeout, connection failure or other request
exception raised by the call itself propagates to the caller instead of
being converted to `None`; only the HTTP-error-status case (raised by
`raise_for_status` inside the `try`) is converted to `None`. -/
theorem sync_exception_propagation :
    sync_request .timeout none = .error .timeout
    ∧ sync_request .connError none = .error .connError
    ∧ sync_request .otherExn none = .error .reqExn
    ∧ sync_request (.resp ⟨"http://x.example", 404, [], [], .ok "nf", "nf"⟩) none
        = .ok none := by
  decide

/-- C10 code evaluation: the (supplied or default) callback runs exactly when
the response arrives with a non-error status, the default extractor returns
the decoded body text, an error status yields `None` without invoking the
callback — but a timeout raised by the `requests.request` call itself
propagates (it is not converted to `None`), the callback again not being
invoked. -/
theorem sync_callback_invocation :
    sync_request_run (.resp ⟨"http://x.example", 200, [], [], .ok "body", "body"⟩) none
        = (.ok (some (.text "body")), true)
    ∧ sync_request_run (.resp ⟨"http://x.example", 200, [], [], .ok "body", "body"⟩)
          (some (fun _ => .cbval 7)) = (.ok (some (.cbval 7)), true)
    ∧ sync_request_run (.resp ⟨"http://x.example", 500, [], [], .ok "err", "err"⟩)
          (some (fun _ => .cbval 7)) = (.ok none, false)
    ∧ sync_request_run .timeout (some (fun _ => .cbval 7))
        = (.error .timeout, false) := by
  refine ⟨rfl, rfl, ?_, rfl⟩
  simp [sync_request_run, raiseForStatusRaises]

/-- C6 counterexample: in `web_requester/requester.py` a successful async
outcome is the bare body text — not a tagged result carrying transport kind,
status and headers — so the claim that every successful outcome is a fully
populated tagged result fails at this input. -/
theorem result_shape_counterexample :
    aiohttp_pure_request (.resp ⟨"http://a.example", 200,
        [("Content-Type", "text/html")], [("User-Agent", "UA")], .ok "body", "body"⟩)
      = .ok (some (.text "body"))
    ∧ (ResultVal.text "body").isFull = false := by
  decide

/-- C6 amended: a failure finalized by a transport is always the `None`
sentinel and a success is never partially populated, but the success shape
differs by variant: in `web_requester/requester.py` it is the body text (or
the callback's value), while in the historical `http_requests` variant it is
the fully populated `AsyncResponse` carrying transport kind, url, status,
response headers, request headers and body text. -/
theorem result_shape_amended (r : RespData) (cb : RespData → ResultVal) :
    aiohttp_pure_request (.resp r) = .ok (some (.text (resp_text r)))
    ∧ aiohttp_pure_request .timeout = .ok none
    ∧ (∀ st, aiohttp_pure_request (.respError st) = .ok none)
    ∧ (raiseForStatusRaises r.status = false →
        sync_request (.resp r) (some cb) = .ok (some (cb r)))
    ∧ (old_aiohttp_pure_request r
        = .full "aiohttp" ⟨r.url, r.status, r.headers, r.request_headers⟩ (resp_text r)
      ∧ (old_aiohttp_pure_request r).isFull = true)
    ∧ (raiseForStatusRaises r.status = false →
        old_sync_request (.resp r)
          = .ok (some (.full "requests"
              ⟨r.url, r.status, r.headers, r.request_headers⟩ (resp_text r))))
    ∧ (raiseForStatusRaises r.status = true → old_sync_request (.resp r) = .ok none) := by
  refine ⟨rfl, rfl, fun st => rfl, fun h => ?_, ⟨rfl, rfl⟩, fun h => ?_, fun h => ?_⟩
  · simp [sync_request, sync_request_run, h]
  · simp [old_sync_request, h]
  · simp [old_sync_request, h]

/-! ### Helper lemmas for the batch coordinator -/

/-- Task building succeeds on a batch with no malformed list/tuple target and
produces exactly one task per target, in order. -/
theorem buildTasks_eq_map (common : Opts) (ts : List Target)
    (h : ∀ t ∈ ts, t ≠ Target.badTup) :
    buildTasks common ts = .ok (ts.map (taskOf common)) := by
  induction ts with
  | nil => rfl
  | cons t ts ih =>
    have ht : t ≠ Target.badTup := h t (List.mem_cons_self t ts)
    have hts : ∀ x ∈ ts, x ≠ Target.badTup :=
      fun x hx => h x (List.mem_cons_of_mem t hx)
    cases t with
    | plain u => simp [buildTasks, buildTask, ih hts, taskOf]
    | pair u o => simp [buildTasks, buildTask, ih hts, taskOf]
    | badTup => exact absurd rfl ht

/-- Task building aborts with the structural error whenever the batch holds a
malformed list/tuple target. -/
theorem buildTasks_error_of_badTup (common : Opts) (ts : List Target)
    (h : Target.badTup ∈ ts) :
    buildTasks common ts = .error () := by
  induction ts with
  | nil => cases h
  | cons t ts ih =>
    cases t with
    | badTup => rfl
    | plain u =>
      have hm : Target.badTup ∈ ts := by
        rcases List.mem_cons.1 h with h1 | h1
        · exact Target.noConfusion h1
        · exact h1
      simp [buildTasks, buildTask, ih hm]
    | pair u o =>
      have hm : Target.badTup ∈ ts := by
        rcases List.mem_cons.1 h with h1 | h1
        · exact Target.noConfusion h1
        · exact h1
      simp [buildTasks, buildTask, ih hm]

/-- Whenever task building succeeds, the task list is the per-target map. -/
theorem buildTasks_ok_eq (common : Opts) (ts : List Target)
    (l0 : List (UrlVal × Opts)) (h : buildTasks common ts = .ok l0) :
    l0 = ts.map (taskOf common) := by
  induction ts generalizing l0 with
  | nil =>
    simp only [buildTasks] at h
    injection h with h
    simp [h.symm]
  | cons t ts ih =>
    cases t with
    | badTup =>
      simp only [buildTasks, buildTask] at h
      exact Except.noConfusion h
    | plain u =>
      simp only [buildTasks, buildTask] at h
      cases hr : buildTasks common ts with
      | error e =>
        simp only [hr] at h
        exact Except.noConfusion h
      | ok rest =>
        simp only [hr] at h
        injection h with h
        rw [← h]
        simp [taskOf, ih rest hr]
    | pair u o =>
      simp only [buildTasks, buildTask] at h
      cases hr : buildTasks common ts with
      | error e =>
        simp only [hr] at h
        exact Except.noConfusion h
      | ok rest =>
        simp only [hr] at h
        injection h with h
        rw [← h]
        simp [taskOf, ih rest hr]

/-- A slot-write characterization of `List.set`. -/
theorem getElem?_set_cond {α : Type} {l : List α} {i j : Nat} {a : α} :
    (l.set i a)[j]? = if i = j ∧ j < l.length then some a else l[j]? := by
  rw [List.getElem?_set]
  by_cases hij : i = j
  · subst hij
    by_cases hl : i < l.length
    · simp [hl]
    · simp [hl, List.getElem?_eq_none (Nat.le_of_not_lt hl)]
  · simp [hij]

/-- After processing the completion order, a slot holds its task's value iff
its index completed, and is untouched otherwise. -/
theorem runOrder_getElem? {α : Type} (run : Nat → α) (ord : List Nat)
    (slots : List (Option α)) (j : Nat) :
    (runOrder run ord slots)[j]? =
      if j ∈ ord ∧ j < slots.length then some (some (run j)) else slots[j]? := by
  induction ord generalizing slots with
  | nil => simp [runOrder]
  | cons i rest ih =>
    simp only [runOrder]
    rw [ih]
    simp only [List.length_set]
    rw [getElem?_set_cond]
    by_cases hij : i = j
    · subst hij
      by_cases hjr : i ∈ rest <;> by_cases hjl : i < slots.length <;>
        simp [hjr, hjl, List.mem_cons]
    · have hji : ¬j = i := fun hh => hij hh.symm
      by_cases hjr : j ∈ rest <;> by_cases hjl : j < slots.length <;>
        simp [hjr, hjl, hij, hji, List.mem_cons]

/-- When the completion order is a permutation of all task indices, the slot
list reads back as the per-index results in input order, whatever the
permutation was. -/
theorem gather_eq_map_range {α : Type} (run : Nat → α) (n : Nat)
    (order : List Nat) (hp : order.Perm (List.range n)) :
    gather run n order = (List.range n).map (fun i => some (run i)) := by
  apply List.ext_getElem?
  intro j
  rw [gather, runOrder_getElem?]
  simp only [List.length_replicate]
  by_cases hj : j < n
  · have hmem : j ∈ order := hp.mem_iff.2 (List.mem_range.2 hj)
    simp [hmem, hj, List.getElem?_range hj]
  · have hcond : ¬(j ∈ order ∧ j < n) := fun hc => hj hc.2
    rw [if_neg hcond, List.getElem?_replicate, if_neg hj]
    symm
    rw [List.getElem?_eq_none]
    simp [Nat.le_of_not_lt hj]

/-- No exception propagates out of `gather` when every gathered task
finishes with a value. -/
theorem firstExn_eq_none {α : Type} (results : Nat → Except PyExn α)
    (order : List Nat) (h : ∀ i ∈ order, ∃ v, results i = .ok v) :
    firstExn results order = none := by
  rw [firstExn, List.findSome?_eq_none_iff]
  intro i hi
  rcases h i hi with ⟨v, hv⟩
  simp [hv]

/-- The gather phase over exception-free tasks returns one slot per task,
indexed by original position, for every completion permutation. -/
theorem gatherPhase_all_ok (tasks : List (UrlVal × Opts))
    (exec : String → Opts → Option ResultVal) (order : List Nat)
    (hok : ∀ i ∈ order, ∃ v, run_async_request exec (tasks.getD i default) = .ok v)
    (hp : order.Perm (List.range tasks.length)) :
    gatherPhase tasks exec order
      = .ok ((List.range tasks.length).map
          (fun i => ((run_async_request exec (tasks.getD i default)).toOption).getD none)) := by
  rw [gatherPhase]
  simp only [firstExn_eq_none _ _ hok]
  rw [gather_eq_map_range _ _ _ hp]
  simp [List.map_map, Function.comp]

/-- Running the task a valid target builds gives that target's terminal
outcome, with no exception. -/
theorem run_taskOf_valid (exec : String → Opts → Option ResultVal)
    (common : Opts) (t : Target) (h : targetValid t = true) :
    run_async_request exec (taskOf common t) = .ok (targetOutcome exec common t) := by
  cases t with
  | plain u =>
    cases u with
    | ustr s =>
      simp only [targetValid, decide_eq_true_eq] at h
      simp [taskOf, run_async_request, targetOutcome, h]
    | unonstr => simp [targetValid] at h
  | pair u o =>
    cases u with
    | ustr s =>
      simp only [targetValid, decide_eq_true_eq] at h
      simp [taskOf, run_async_request, targetOutcome, h]
    | unonstr => simp [targetValid] at h
  | badTup => simp [targetValid] at h

/-- C3: for a batch whose targets all pass structural and scheme validation,
the coordinator returns exactly one slot per input target, slot `i` holding
target `i`'s outcome, for *every* completion order that is a permutation of
the task indices — the result does not depend on the completion order. -/
theorem batch_order_independence (targets : List Target) (common : Opts)
    (exec : String → Opts → Option ResultVal) (order : List Nat)
    (hv : ∀ t ∈ targets, targetValid t = true)
    (hp : order.Perm (List.range targets.length)) :
    request_all_async targets common exec order
      = .ok (targets.map (targetOutcome exec common)) := by
  have hbad : ∀ t ∈ targets, t ≠ Target.badTup := by
    intro t ht heq
    have hvt := hv t ht
    rw [heq] at hvt
    simp [targetValid] at hvt
  have htasks := buildTasks_eq_map common targets hbad
  have hmain : request_all_async targets common exec order
      = gatherPhase (targets.map (taskOf common)) exec order := by
    unfold request_all_async
    rw [htasks]
  rw [hmain]
  have hlen : (targets.map (taskOf common)).length = targets.length :=
    List.length_map _ _
  have hgd : ∀ i (hi : i < targets.length),
      (targets.map (taskOf common)).getD i default = taskOf common targets[i] := by
    intro i hi
    rw [List.getD_eq_getElem?_getD, List.getElem?_map, List.getElem?_eq_getElem hi]
    rfl
  have hrun : ∀ i (hi : i < targets.length),
      run_async_request exec ((targets.map (taskOf common)).getD i default)
        = .ok (targetOutcome exec common targets[i]) := by
    intro i hi
    rw [hgd i hi]
    exact run_taskOf_valid exec common _ (hv _ (List.getElem_mem hi))
  have hok : ∀ i ∈ order, ∃ v,
      run_async_request exec ((targets.map (taskOf common)).getD i default) = .ok v := by
    intro i himem
    have hi : i < targets.length := by
      have := hp.mem_iff.1 himem
      exact List.mem_range.1 this
    exact ⟨_, hrun i hi⟩
  rw [gatherPhase_all_ok _ _ _ hok (by rw [hlen]; exact hp)]
  rw [hlen]
  congr 1
  apply List.ext_getElem?
  intro j
  rw [List.getElem?_map, List.getElem?_map]
  by_cases hj : j < targets.length
  · rw [List.getElem?_range hj, List.getElem?_eq_getElem hj]
    simp only [Option.map_some', Option.some.injEq]
    rw [hrun j hj]
    rfl
  · rw [List.getElem?_eq_none (by simpa using Nat.le_of_not_lt hj),
      List.getElem?_eq_none (Nat.le_of_not_lt hj)]
    rfl

/-- C3 witness: `batch_order_independence` applied to a concrete two-target
batch completed in reverse order. -/
theorem batch_order_independence_witness :
    request_all_async
        [Target.plain (.ustr "http://a.example"),
         Target.pair (.ustr "http://b.example") [("timeout", .vn 9)]]
        [("method", .vs "get")]
        (fun u _ => some (.text u)) [1, 0]
      = .ok ([Target.plain (.ustr "http://a.example"),
          Target.pair (.ustr "http://b.example") [("timeout", .vn 9)]].map
            (targetOutcome (fun u _ => some (.text u)) [("method", .vs "get")])) :=
  batch_order_independence _ _ _ _ (by decide) (by decide)

/-- C5 counterexample: a batch holding a target that is neither a string nor
a list/tuple (here a non-string scalar) is *not* rejected structurally: task
building succeeds, both requests are dispatched, and the batch fails later
with the task-level `TypeError` that `parse_url` raises, not with the
structural error the claim requires before dispatch. -/
theorem batch_structural_counterexample :
    buildTasks [] [Target.plain (.ustr "http://good.example"), Target.plain .unonstr]
        = .ok [(.ustr "http://good.example", []), (.unonstr, [])]
    ∧ dispatchedTasks
        [Target.plain (.ustr "http://good.example"), Target.plain .unonstr] [] = 2
    ∧ request_all_async
        [Target.plain (.ustr "http://good.example"), Target.plain .unonstr] []
        (fun _ _ => some (.text "ok")) [0, 1]
      = .error (.task .typeError) := by
  decide

/-- C5 amended: for every batch containing a malformed *list/tuple* target
(wrong length or non-mapping second element), the coordinator raises the
structural error during task creation and dispatches no request, whatever
the common options, the network behavior and the completion order. -/
theorem batch_structural_abort (targets : List Target) (common : Opts)
    (exec : String → Opts → Option ResultVal) (order : List Nat)
    (h : Target.badTup ∈ targets) :
    request_all_async targets common exec order = .error .structural
    ∧ dispatchedTasks targets common = 0 := by
  have hb := buildTasks_error_of_badTup common targets h
  constructor
  · unfold request_all_async
    rw [hb]
  · unfold dispatchedTasks
    rw [hb]

/-- C5 witness: `batch_structural_abort` applied to a concrete batch holding
one malformed pair target. -/
theorem batch_structural_abort_witness :
    request_all_async [Target.plain (.ustr "http://a.example"), Target.badTup]
        [] (fun _ _ => none) [0, 1] = .error .structural
    ∧ dispatchedTasks [Target.plain (.ustr "http://a.example"), Target.badTup] [] = 0 :=
  batch_structural_abort _ _ _ _ (by decide)

/-- C9 counterexample: in the historical coordinator `execute_async`, two
batches that differ only in target 0's per-request options give target 1
*different* effective options — target 0's `timeout` leaks into target 1 —
because the merged options are rebound over the running `common_options`
instead of a per-iteration copy. -/
theorem option_independence_counterexample :
    execute_async_eff_opts []
        [Target.pair (.ustr "http://a.example") [("timeout", .vn 99)],
         Target.plain (.ustr "http://b.example")]
      = .ok [[("timeout", .vn 99)], [("timeout", .vn 99)]]
    ∧ execute_async_eff_opts []
        [Target.pair (.ustr "http://a.example") [],
         Target.plain (.ustr "http://b.example")]
      = .ok [[], []]
    ∧ dictGet [("timeout", OVal.vn 99)] "timeout" ≠ dictGet [] "timeout" := by
  decide

/-- C9 amended: in the primary coordinator `request_all_async`, target `i`'s
effective options are a function of the common options and target `i` alone
— any two batches agreeing at position `i` resolve identical effective
options there, whatever the other targets' per-request options are. -/
theorem option_independence_amended (common : Opts) (ts ts' : List Target)
    (i : Nat) (l l' : List Opts)
    (hi : ts[i]? = ts'[i]?)
    (h : request_all_async_eff_opts common ts = .ok l)
    (h' : request_all_async_eff_opts common ts' = .ok l') :
    l[i]? = l'[i]? := by
  have hof : ∀ (u : List Target) (w : List Opts),
      request_all_async_eff_opts common u = .ok w →
      w = u.map (fun t => (taskOf common t).2) := by
    intro u w hw
    unfold request_all_async_eff_opts at hw
    cases hb : buildTasks common u with
    | error e =>
      rw [hb] at hw
      exact Except.noConfusion hw
    | ok l0 =>
      rw [hb] at hw
      injection hw with hw
      rw [← hw, buildTasks_ok_eq common u l0 hb, List.map_map]
      rfl
  rw [hof ts l h, hof ts' l' h', List.getElem?_map, List.getElem?_map, hi]

/-- C9 witness: `option_independence_amended` applied to two concrete batches
differing only in target 0's options, compared at position 1. -/
theorem option_independence_amended_witness :
    ([[("x", OVal.vn 1)], ([] : Opts)] : List Opts)[1]?
      = ([[("x", OVal.vn 2)], ([] : Opts)] : List Opts)[1]? :=
  option_independence_amended []
    [Target.pair (.ustr "http://a.example") [("x", .vn 1)],
     Target.plain (.ustr "http://b.example")]
    [Target.pair (.ustr "http://a.example") [("x", .vn 2)],
     Target.plain (.ustr "http://b.example")]
    1 _ _ (by decide) (by decide) (by decide)

/-- C6 witness: `result_shape_amended` applied at a concrete successful
response of the historical sync transport. -/
theorem result_shape_amended_witness :
    old_sync_request (.resp ⟨"http://a.example", 200, [], [], .ok "body", "body"⟩)
      = .ok (some (.full "requests" ⟨"http://a.example", 200, [], []⟩ "body")) :=
  (result_shape_amended ⟨"http://a.example", 200, [], [], .ok "body", "body"⟩
    (fun _ => .cbval 0)).2.2.2.2.2.1 (by decide)

end WebRequester
